import Mathlib

/-!
Verification of the failure-classification and response-rendering layer of the
docs.rs web service (`src/web/error.rs`) and of the registry metadata client
(`src/index/api.rs`), as a shallow embedding in Lean 4.

Rust enums become Lean inductives, `match` becomes Lean `match`, fallible code
returns `Except`.  External collaborators that are not part of the analyzed
sources (the percent-encoder, the redirect builder, the search-page data, the
cache policy, the HTML error-page template, the storage layer's path-not-found
signal) are modelled from the specification, each marked `Modelled from the
spec:` in its doc comment.
-/

namespace DocsRs

/-- Modelled from the spec: `CachePolicy` (from `src/web/cache.rs`, not among the
analyzed sources) is an enumerated caching directive attached to redirect
responses, opaque to this layer beyond being passed through to the
response-header builder.  Only the variant exercised by the code and tests is
named; the rest are collapsed into one opaque alternative. -/
inductive CachePolicy where
| forever_in_cdn_and_browser
| other_policy
deriving Repr, DecidableEq

/-- Modelled from the spec: the search-results page data (`Search` from
`src/web/releases.rs`, not among the analyzed sources).  Only the fields this
layer sets are modelled, together with their `Default` values; `NoResults`
overrides both. -/
structure Search where
title : String := ""
status : Nat := 200
deriving Repr, DecidableEq

/-- Modelled from the spec: a database-query error (`sqlx::Error`, an external
crate type), opaque to this layer except for its human-readable description. -/
structure SqlxError where
msg : String
deriving Repr, DecidableEq

/-- Modelled from the spec: a connection-pool error (`PoolError` from
`src/db`, not among the analyzed sources), opaque to this layer except for its
human-readable description. -/
structure PoolError where
msg : String
deriving Repr, DecidableEq

mutual

/-- An opaque `anyhow::Error` value, as far as this layer can observe it: the
classifier in `src/web/error.rs` probes it by downcasting, first to `AxumNope`,
then to the storage collaborator's `PathNotFoundError`; anything else stays
opaque.  Database and pool errors wrapped via `anyhow!` are neither of the two
downcast targets, so they get their own opaque constructors. -/
inductive AnyhowError where
| ofAxumNope (n : AxumNope)
| pathNotFound
| ofSqlx (e : SqlxError)
| ofPool (e : PoolError)
| other (msg : String)

/-- The failure taxonomy `AxumNope` from `src/web/error.rs`. -/
inductive AxumNope where
| resourceNotFound
| buildNotFound
| crateNotFound
| ownerNotFound
| versionNotFound
| noResults
| internalError (source : AnyhowError)
| badRequest (source : AnyhowError)
| redirect (target : String) (cache_policy : CachePolicy)

end

/-- The `thiserror`-derived `Display` strings of `AxumNope`
(the `#[error("...")]` attributes in `src/web/error.rs`). -/
def AxumNope.displayString : AxumNope → String
| .resourceNotFound => "Requested resource not found"
| .buildNotFound => "Requested build not found"
| .crateNotFound => "Requested crate not found"
| .ownerNotFound => "Requested owner not found"
| .versionNotFound => "Requested crate does not have specified version"
| .noResults => "Search yielded no results"
| .internalError _ => "internal error"
| .badRequest _ => "bad request"
| .redirect _ _ => "redirect"

/-- `Display` of an opaque `anyhow::Error`: for a wrapped `AxumNope` it is that
value's own display string; for the storage signal it is the display of
`PathNotFoundError` (modelled from the spec, the exact text being outside the
analyzed sources); otherwise it is the wrapped error's own message. -/
def AnyhowError.displayString : AnyhowError → String
| .ofAxumNope n => n.displayString
| .pathNotFound => "the requested path does not exist"
| .ofSqlx e => e.msg
| .ofPool e => e.msg
| .other msg => msg

/-- `err.downcast::<AxumNope>()`: succeeds exactly when the opaque value is an
`AxumNope`, otherwise returns the value unchanged. -/
def downcastAxumNope : AnyhowError → Except AnyhowError AxumNope
| .ofAxumNope n => .ok n
| e => .error e

/-- `err.downcast::<PathNotFoundError>()`: succeeds exactly when the opaque
value is the storage collaborator's path-not-found signal, otherwise returns
the value unchanged. -/
def downcastPathNotFound : AnyhowError → Except AnyhowError Unit
| .pathNotFound => .ok ()
| e => .error e

/-- `impl From<anyhow::Error> for AxumNope` (`src/web/error.rs`, lines
191-201): downcast to `AxumNope`, else downcast to `PathNotFoundError` giving
`ResourceNotFound`, else wrap in `InternalError`. -/
def axumNope_from_anyhow (err : AnyhowError) : AxumNope :=
  match downcastAxumNope err with
  | .ok axum_nope => axum_nope
  | .error err =>
    match downcastPathNotFound err with
    | .ok _ => .resourceNotFound
    | .error err => .internalError err

/-- `impl From<sqlx::Error> for AxumNope` (`src/web/error.rs`, lines 203-207):
`AxumNope::InternalError(anyhow!(err))`. -/
def axumNope_from_sqlx (err : SqlxError) : AxumNope :=
  .internalError (.ofSqlx err)

/-- `impl From<PoolError> for AxumNope` (`src/web/error.rs`, lines 209-213):
`AxumNope::InternalError(anyhow!(err))`. -/
def axumNope_from_pool (err : PoolError) : AxumNope :=
  .internalError (.ofPool err)

/-- The body of a final transport response, as far as this layer shapes it:
an HTML error page (the `AxumErrorPage` template rendered with title, message
and status), a JSON error envelope, a search-results page, or an empty body
(as carried by a redirect response). -/
inductive ResponseBody where
| htmlErrorPage (title : String) (message : String)
| jsonError (title : String) (message : String)
| searchPage (s : Search)
| empty
deriving Repr, DecidableEq

/-- A final axum `Response`, restricted to the observables this layer
determines: status code, optional `Location` header, optional cache policy
(standing for the cache headers), and the body shape. -/
structure AxumResponse where
status : Nat
location : Option String := none
cache_policy : Option CachePolicy := none
body : ResponseBody := .empty
deriving Repr, DecidableEq

/-- `ErrorInfo` from `src/web/error.rs`: title, message and status of a
generic error page/payload. -/
structure ErrorInfo where
title : String
message : String
status : Nat
deriving Repr, DecidableEq

/-- `ErrorResponse` from `src/web/error.rs`: an outcome from `AxumNope`,
usable in both HTML and JSON based endpoints. -/
inductive ErrorResponse where
| errorInfo (info : ErrorInfo)
| redirect (response : AxumResponse)
| search (s : Search)
deriving Repr, DecidableEq

/-- Uppercase hexadecimal digit for a value below 16. -/
def hexUpper (n : Nat) : Char :=
  if n < 10 then Char.ofNat (0x30 + n) else Char.ofNat (0x41 + (n - 10))

/-- The UTF-8 bytes of a character (standard encoding, 1 to 4 bytes). -/
def utf8Bytes (c : Char) : List Nat :=
  let n := c.toNat
  if n < 0x80 then [n]
  else if n < 0x800 then
    [0xc0 + n / 0x40, 0x80 + n % 0x40]
  else if n < 0x10000 then
    [0xe0 + n / 0x1000, 0x80 + (n / 0x40) % 0x40, 0x80 + n % 0x40]
  else
    [0xf0 + n / 0x40000, 0x80 + (n / 0x1000) % 0x40, 0x80 + (n / 0x40) % 0x40,
      0x80 + n % 0x40]

/-- Modelled from the spec: the character set kept verbatim by the
percent-encoder — printable ASCII minus the characters unsafe in a URL path
(space, double quote, angle brackets, question mark, backquote, curly
brackets); everything else, controls and non-ASCII included, is escaped. -/
def isPathSafe (n : Nat) : Bool :=
  0x20 < n && n < 0x7f && n != 0x22 && n != 0x3c && n != 0x3e && n != 0x3f &&
    n != 0x60 && n != 0x7b && n != 0x7d

/-- Modelled from the spec: `encode_url_path` (from `src/web/mod.rs`, not among
the analyzed sources) percent-encodes a path for safe use in a URL: reserved or
unsafe characters are escaped as `%XX` over their UTF-8 bytes, with uppercase
hexadecimal, e.g. `/something>` becomes `/something%3E`. -/
def encode_url_path (path : String) : String :=
  String.mk (path.data.flatMap fun c =>
    if isPathSafe c.toNat then [c]
    else (utf8Bytes c).flatMap fun b => ['%', hexUpper (b / 16), hexUpper (b % 16)])

/-- Modelled from the spec: whether a string can be used as the target of a
redirect response — it must parse as a URI reference, which fails for the
empty string and for strings holding characters outside printable ASCII. -/
def isValidRedirectTarget (path : String) : Bool :=
  !path.isEmpty && path.data.all fun c => 0x20 < c.toNat && c.toNat < 0x7f

/-- Modelled from the spec: `axum_cached_redirect` (from `src/web/mod.rs`, not
among the analyzed sources) builds an HTTP 302 response whose `Location` header
is the given already-encoded path and whose cache headers follow the given
policy; it may fail, namely when the path is not a valid redirect target. -/
def axum_cached_redirect (path : String) (cache_policy : CachePolicy) :
    Except AnyhowError AxumResponse :=
  if isValidRedirectTarget path then
    .ok { status := 302, location := some path, cache_policy := some cache_policy }
  else
    .error (.other ("invalid redirect target: " ++ path))

/-- Measure for the one-step recursion of the selector: only the `Redirect`
variant recurses, and it recurses on an `InternalError`. -/
def AxumNope.redirectDepth : AxumNope → Nat
| .redirect _ _ => 1
| _ => 0

/-- `AxumNope::into_error_response` (`src/web/error.rs`, lines 44-111), the
rendering strategy selector.  `crate::utils::report_error` in the
`InternalError` arm is a fire-and-forget telemetry side effect with no
influence on the returned value, so it has no counterpart in the pure
embedding.  The `Redirect` arm recurses one step when the redirect builder
fails. -/
def AxumNope.into_error_response : AxumNope → ErrorResponse
| AxumNope.resourceNotFound =>
  .errorInfo { title := "The requested resource does not exist",
               message := "no such resource", status := 404 }
| AxumNope.buildNotFound =>
  .errorInfo { title := "The requested build does not exist",
               message := "no such build", status := 404 }
| AxumNope.crateNotFound =>
  .errorInfo { title := "The requested crate does not exist",
               message := "no such crate", status := 404 }
| AxumNope.ownerNotFound =>
  .errorInfo { title := "The requested owner does not exist",
               message := "no such owner", status := 404 }
| AxumNope.versionNotFound =>
  .errorInfo { title := "The requested version does not exist",
               message := "no such version for this crate", status := 404 }
| AxumNope.noResults =>
  .search { title := "No results given for empty search query", status := 404 }
| AxumNope.badRequest source =>
  .errorInfo { title := "Bad request", message := source.displayString,
               status := 400 }
| AxumNope.internalError source =>
  .errorInfo { title := "Internal Server Error", message := source.displayString,
               status := 500 }
| AxumNope.redirect target cache_policy =>
  match axum_cached_redirect (encode_url_path target) cache_policy with
  | .ok response => .redirect response
  | .error err => (AxumNope.internalError err).into_error_response
termination_by n => n.redirectDepth
decreasing_by simp [AxumNope.redirectDepth]

/-- `ErrorResponse::into_html_response` (`src/web/error.rs`, lines 135-150).
The `ErrorInfo` arm renders the `AxumErrorPage` template (modelled from the
spec: an HTML page carrying the title and message, with the given status); the
`Search` arm renders the search page with its own status. -/
def ErrorResponse.into_html_response : ErrorResponse → AxumResponse
| .errorInfo info =>
  { status := info.status, body := .htmlErrorPage info.title info.message }
| .redirect response => response
| .search sdata => { status := sdata.status, body := ResponseBody.searchPage sdata }

/-- `ErrorResponse::into_json_response` (`src/web/error.rs`, lines 152-173).
The `Search` arm aborts loudly (a Rust `panic`), modelled as `none`; the other
arms return normally, modelled as `some`. -/
def ErrorResponse.into_json_response : ErrorResponse → Option AxumResponse
| .errorInfo info =>
  some { status := info.status, body := .jsonError info.title info.message }
| .redirect response => some response
| .search _ => none

/-- `impl IntoResponse for AxumNope` (`src/web/error.rs`, lines 176-180):
the HTML rendering path. -/
def AxumNope.into_response (n : AxumNope) : AxumResponse :=
  n.into_error_response.into_html_response

/-- `impl IntoResponse for JsonAxumNope` (`src/web/error.rs`, lines 185-189):
the JSON rendering path (`none` standing for the deliberate abort). -/
def JsonAxumNope.into_response (n : AxumNope) : Option AxumResponse :=
  n.into_error_response.into_json_response

/-! The registry metadata client, `src/index/api.rs`.  The HTTP transport, the
JSON deserialization and the semver parser are external collaborators: each
fallible external step enters the embedding as an `Except`-valued input, and
the functions below are the source's processing of those inputs.  `Utc::now()`
enters `get_release_data` as the `now` input. -/

/-- `CrateOwner` from `src/index/api.rs`. -/
structure CrateOwner where
avatar : String
email : String
login : String
name : String
deriving Repr, DecidableEq

/-- `CrateData` from `src/index/api.rs`. -/
structure CrateData where
owners : List CrateOwner
deriving Repr, DecidableEq

/-- `ReleaseData` from `src/index/api.rs`; `DateTime<Utc>` is abstracted to an
opaque timestamp `T`, and the `i32` download count to `Int`. -/
structure ReleaseData (T : Type) where
release_time : T
yanked : Bool
downloads : Int
deriving Repr, DecidableEq

/-- `OwnerData`, the deserialized shape of one owner entry in the registry's
response (`src/index/api.rs`, `get_owners`): every field is optional, with
`#[serde(default)]` turning an absent field into `None`. -/
structure OwnerData where
avatar : Option String
email : Option String
login : Option String
name : Option String
deriving Repr, DecidableEq

/-- `VersionData`, the deserialized shape of one version entry in the
registry's response (`src/index/api.rs`, `get_release_time_yanked_downloads`);
the semver version type `V` and the timestamp type `T` are external. -/
structure VersionData (V T : Type) where
num : V
created_at : T
yanked : Bool
downloads : Int
deriving Repr, DecidableEq

/-- The filter predicate of `get_owners`
(`!data.login.as_ref().map(|login| login.is_empty()).unwrap_or_default()`):
keep an entry unless its login is present and empty. -/
def ownerDataKept (data : OwnerData) : Bool :=
  !((data.login.map String.isEmpty).getD false)

/-- The map step of `get_owners`: each missing field defaults to the empty
string (`unwrap_or_default`). -/
def crateOwnerOfData (data : OwnerData) : CrateOwner :=
  { avatar := data.avatar.getD "", email := data.email.getD "",
    login := data.login.getD "", name := data.name.getD "" }

/-- `Api::get_owners` (`src/index/api.rs`, lines 132-179): build the URL (may
fail if the api base is missing or invalid), fetch and deserialize (external,
may fail), then filter out entries with a present-but-empty login and default
every missing field to the empty string. -/
def get_owners (urlResult : Except String Unit)
    (httpResult : Except String (List OwnerData)) :
    Except String (List CrateOwner) := do
  let _ ← urlResult
  let response ← httpResult
  return (response.filter ownerDataKept).map crateOwnerOfData

/-- `Api::get_crate_data` (`src/index/api.rs`, lines 65-72): on any failure of
`get_owners` the error is downgraded to a logged warning and the owners list
falls back to empty. -/
def get_crate_data (urlResult : Except String Unit)
    (httpResult : Except String (List OwnerData)) : CrateData :=
  { owners :=
      match get_owners urlResult httpResult with
      | .ok owners => owners
      | .error _ => [] }

/-- `Api::get_release_time_yanked_downloads` (`src/index/api.rs`, lines
90-129): build the URL, fetch and deserialize the versions list, parse the
requested version string (external semver parser, entering as `parseResult`),
and look the version up in the response. -/
def get_release_time_yanked_downloads {V T : Type} [DecidableEq V]
    (urlResult : Except String Unit)
    (httpResult : Except String (List (VersionData V T)))
    (parseResult : Except String V) :
    Except String (T × Bool × Int) := do
  let _ ← urlResult
  let response ← httpResult
  let version ← parseResult
  match response.find? fun data => data.num == version with
  | some v => return (v.created_at, v.yanked, v.downloads)
  | none => Except.error "Could not find version in response"

/-- `Api::get_release_data` (`src/index/api.rs`, lines 74-87): on any failure
the error is downgraded to a logged warning and the data falls back to the
current time, not yanked, zero downloads. -/
def get_release_data {V T : Type} [DecidableEq V] (now : T)
    (urlResult : Except String Unit)
    (httpResult : Except String (List (VersionData V T)))
    (parseResult : Except String V) : ReleaseData T :=
  match get_release_time_yanked_downloads urlResult httpResult parseResult with
  | .ok (release_time, yanked, downloads) =>
    { release_time := release_time, yanked := yanked, downloads := downloads }
  | .error _ => { release_time := now, yanked := false, downloads := 0 }

/-- The title a response carries, as observable in its body: the title of the
HTML error page, the `"title"` field of the JSON envelope, or the title of the
rendered search page. -/
def ResponseBody.titleOf : ResponseBody → Option String
| .htmlErrorPage t _ => some t
| .jsonError t _ => some t
| .searchPage s => some s.title
| .empty => none

/-- C1: the classifier from an opaque error value to the failure taxonomy is
total and ordered, first match wins: a value that is already an `AxumNope` is
returned unwrapped and unchanged; otherwise a `PathNotFoundError` yields
`ResourceNotFound`; otherwise the result is `InternalError` wrapping the
original value.  The guards of the three disjuncts negate the earlier matches,
so for every input exactly one of the three outcomes occurs. -/
theorem classifier_total_first_match_wins (e : AnyhowError) :
    (∃ n, e = AnyhowError.ofAxumNope n ∧ axumNope_from_anyhow e = n)
    ∨ ((¬ ∃ n, e = AnyhowError.ofAxumNope n) ∧ e = AnyhowError.pathNotFound
        ∧ axumNope_from_anyhow e = AxumNope.resourceNotFound)
    ∨ ((¬ ∃ n, e = AnyhowError.ofAxumNope n) ∧ e ≠ AnyhowError.pathNotFound
        ∧ axumNope_from_anyhow e = AxumNope.internalError e) := by
  cases e <;>
    simp [axumNope_from_anyhow, downcastAxumNope, downcastPathNotFound]

/-- C6: classification is idempotent — classifying the opaque error obtained
from an already-classified `FailureKind` returns it unchanged. -/
theorem classifier_idempotent (v : AxumNope) :
    axumNope_from_anyhow (AnyhowError.ofAxumNope v) = v := rfl

/-- C8: every database-query error and every connection-pool error converts
directly and unconditionally to `InternalError` wrapping that error. -/
theorem db_and_pool_errors_map_to_internal_error (e : SqlxError) (p : PoolError) :
    axumNope_from_sqlx e = AxumNope.internalError (AnyhowError.ofSqlx e)
    ∧ axumNope_from_pool p = AxumNope.internalError (AnyhowError.ofPool p) :=
  ⟨rfl, rfl⟩

/-- C4: the JSON renderer aborts loudly (modelled as `none`) on every `Search`
shape, and returns normally (`some`) exactly on the `ErrorInfo` and `Redirect`
shapes. -/
theorem json_renderer_rejects_search_shape (r : ErrorResponse) :
    (ErrorResponse.into_json_response r).isSome =
      (match r with
       | .errorInfo _ => true
       | .redirect _ => true
       | .search _ => false)
    ∧ ∀ s, ErrorResponse.into_json_response (.search s) = none := by
  refine ⟨?_, fun s => rfl⟩
  cases r <;> rfl

/-- C2: when building the redirect response from the percent-encoded path
fails, the selector re-invokes itself exactly once on `InternalError` wrapping
the build failure, and the result is the 500 Internal Server Error `Info`
shape; the `InternalError` branch itself always yields an `Info` shape with
status 500 (it never reaches the `Redirect` branch again), so the recursion
has depth at most one and the selector is a total function. -/
theorem redirect_failure_recurses_once_to_500 (target : String) (cp : CachePolicy) :
    (∀ err, axum_cached_redirect (encode_url_path target) cp = .error err →
      AxumNope.into_error_response (.redirect target cp)
          = AxumNope.into_error_response (.internalError err)
        ∧ AxumNope.into_error_response (.redirect target cp)
          = .errorInfo { title := "Internal Server Error",
                         message := err.displayString, status := 500 })
    ∧ ∀ e, AxumNope.into_error_response (.internalError e)
        = .errorInfo { title := "Internal Server Error",
                       message := e.displayString, status := 500 } := by
  refine ⟨fun err h => ⟨?_, ?_⟩, fun e => ?_⟩
  · simp [AxumNope.into_error_response, h]
  · simp [AxumNope.into_error_response, h]
  · simp [AxumNope.into_error_response]

/-- C2 witness: the empty target path percent-encodes to the empty string,
which the redirect builder rejects, and the selector degrades to the 500
`Info` shape. -/
theorem redirect_failure_recurses_once_to_500_witness :
    AxumNope.into_error_response
        (.redirect "" CachePolicy.forever_in_cdn_and_browser)
      = .errorInfo { title := "Internal Server Error",
                     message := "invalid redirect target: ", status := 500 } :=
  ((redirect_failure_recurses_once_to_500 "" CachePolicy.forever_in_cdn_and_browser).1
    (.other "invalid redirect target: ") (by rfl)).2

/-- C7: for every `FailureKind` input, the selector produces the `Search`
shape exactly on `NoResults`; every other variant yields either an `Info`
shape or a `Redirect` shape. -/
theorem search_shape_exactly_from_noResults (n : AxumNope) :
    ((∃ s, AxumNope.into_error_response n = .search s) ↔ n = .noResults)
    ∧ (n ≠ .noResults →
        (∃ info, AxumNope.into_error_response n = .errorInfo info)
        ∨ ∃ resp, AxumNope.into_error_response n = .redirect resp) := by
  have hcov : (∃ info, AxumNope.into_error_response n = .errorInfo info)
      ∨ (∃ resp, AxumNope.into_error_response n = .redirect resp)
      ∨ ∃ s, AxumNope.into_error_response n = .search s := by
    rcases h : AxumNope.into_error_response n with i | r | s
    · exact Or.inl ⟨i, rfl⟩
    · exact Or.inr (Or.inl ⟨r, rfl⟩)
    · exact Or.inr (Or.inr ⟨s, rfl⟩)
  have hiff : (∃ s, AxumNope.into_error_response n = .search s) ↔ n = .noResults := by
    cases n
    case redirect target cp =>
      rcases hred : axum_cached_redirect (encode_url_path target) cp with err | resp
      · simp [AxumNope.into_error_response, hred]
      · simp [AxumNope.into_error_response, hred]
    all_goals simp [AxumNope.into_error_response]
  refine ⟨hiff, fun hne => ?_⟩
  rcases hcov with h | h | h
  · exact Or.inl h
  · exact Or.inr h
  · exact absurd (hiff.mp h) hne

/-- C7 witness: `CrateNotFound` is not `NoResults` and yields an `Info` or
`Redirect` shape (in fact an `Info` one). -/
theorem search_shape_exactly_from_noResults_witness :
    AxumNope.crateNotFound ≠ AxumNope.noResults
    ∧ ((∃ info, AxumNope.into_error_response AxumNope.crateNotFound
          = .errorInfo info)
        ∨ ∃ resp, AxumNope.into_error_response AxumNope.crateNotFound
          = .redirect resp) :=
  ⟨fun h => AxumNope.noConfusion h,
    (search_shape_exactly_from_noResults AxumNope.crateNotFound).2
      fun h => AxumNope.noConfusion h⟩

/-- Both renderers give the taxonomy kind this status code and this literal
title. -/
def rendersBothAs (n : AxumNope) (status : Nat) (title : String) : Prop :=
  (AxumNope.into_response n).status = status
  ∧ (AxumNope.into_response n).body.titleOf = some title
  ∧ (JsonAxumNope.into_response n).map AxumResponse.status = some status
  ∧ (JsonAxumNope.into_response n).map (fun r => r.body.titleOf)
    = some (some title)

/-- The HTML renderer gives the taxonomy kind this status code and this
literal title. -/
def rendersHtmlAs (n : AxumNope) (status : Nat) (title : String) : Prop :=
  (AxumNope.into_response n).status = status
  ∧ (AxumNope.into_response n).body.titleOf = some title

/-- C3: for every taxonomy kind except `Redirect`, and except `NoResults`
through the JSON path, the rendered response's status code and literal title
match the spec's table: the five not-found kinds and `NoResults` give 404 with
their fixed titles, `BadRequest` gives 400 with title "Bad request",
`InternalError` gives 500 with title "Internal Server Error". -/
theorem renderers_match_status_title_table (e₁ e₂ : AnyhowError) :
    rendersBothAs .resourceNotFound 404 "The requested resource does not exist"
    ∧ rendersBothAs .buildNotFound 404 "The requested build does not exist"
    ∧ rendersBothAs .crateNotFound 404 "The requested crate does not exist"
    ∧ rendersBothAs .ownerNotFound 404 "The requested owner does not exist"
    ∧ rendersBothAs .versionNotFound 404 "The requested version does not exist"
    ∧ rendersHtmlAs .noResults 404 "No results given for empty search query"
    ∧ rendersBothAs (.badRequest e₁) 400 "Bad request"
    ∧ rendersBothAs (.internalError e₂) 500 "Internal Server Error" := by
  refine ⟨?_, ?_, ?_, ?_, ?_, ?_, ?_, ?_⟩ <;>
    simp [rendersBothAs, rendersHtmlAs, AxumNope.into_response,
      JsonAxumNope.into_response, AxumNope.into_error_response,
      ErrorResponse.into_html_response, ErrorResponse.into_json_response,
      ResponseBody.titleOf]

/-- Every character of a valid Unicode code point is below `0x110000`. -/
theorem char_toNat_lt_card (c : Char) : c.toNat < 0x110000 := by
  have h : c.val.toNat < 0xd800 ∨ 0xe000 ≤ c.val.toNat ∧ c.val.toNat < 0x110000 :=
    c.valid
  have h2 : c.toNat = c.val.toNat := rfl
  omega

/-- Every UTF-8 byte of a character is below 256. -/
theorem utf8Bytes_lt (c : Char) : ∀ b ∈ utf8Bytes c, b < 256 := by
  have hc := char_toNat_lt_card c
  intro b hb
  simp only [utf8Bytes] at hb
  split at hb <;> [skip; split at hb] <;> [skip; skip; split at hb] <;>
    simp at hb <;> omega

/-- A hexadecimal digit character is in the path-safe set. -/
theorem hexUpper_safe (m : Nat) (h : m < 16) :
    isPathSafe (hexUpper m).toNat = true := by
  interval_cases m <;> decide

/-- Every character of the percent-encoder's output is path-safe: reserved or
unsafe characters never reach the output verbatim. -/
theorem encode_url_path_all_safe (target : String) :
    ((encode_url_path target).data.all fun c => isPathSafe c.toNat) = true := by
  rw [List.all_eq_true]
  intro c hc
  have hc2 : c ∈ target.data.flatMap fun a =>
      if isPathSafe a.toNat then [a]
      else (utf8Bytes a).flatMap fun b => ['%', hexUpper (b / 16), hexUpper (b % 16)] := hc
  rw [List.mem_flatMap] at hc2
  obtain ⟨a, _, hmem⟩ := hc2
  by_cases hsafe : isPathSafe a.toNat
  · simp only [hsafe, if_pos, List.mem_singleton] at hmem
    subst hmem
    simpa using hsafe
  · simp only [hsafe] at hmem
    rw [if_neg (by simp [hsafe]), List.mem_flatMap] at hmem
    obtain ⟨b, hb, hcb⟩ := hmem
    have hblt := utf8Bytes_lt a b hb
    simp only [List.mem_cons, List.mem_singleton, List.not_mem_nil, or_false] at hcb
    rcases hcb with h | h | h <;> subst h
    · decide
    · exact hexUpper_safe _ (by omega)
    · exact hexUpper_safe _ (by omega)

/-- C5: rendering `Redirect("/something>", ForeverInCdnAndBrowser)` through
the HTML path yields status 302 and `Location: /something%3E`; in general, for
every target whose encoding the redirect builder accepts, the `Location`
header holds exactly the percent-encoded path, and the encoder's output never
holds a reserved or unsafe character verbatim. -/
theorem redirect_location_is_percent_encoded :
    ((AxumNope.into_response
        (.redirect "/something>" CachePolicy.forever_in_cdn_and_browser)).status
        = 302
      ∧ (AxumNope.into_response
          (.redirect "/something>" CachePolicy.forever_in_cdn_and_browser)).location
        = some "/something%3E")
    ∧ (∀ target cp, isValidRedirectTarget (encode_url_path target) = true →
        (AxumNope.into_response (.redirect target cp)).status = 302
        ∧ (AxumNope.into_response (.redirect target cp)).location
          = some (encode_url_path target))
    ∧ ∀ target, ((encode_url_path target).data.all fun c => isPathSafe c.toNat)
        = true := by
  refine ⟨?_, fun target cp h => ?_, encode_url_path_all_safe⟩
  · have henc : encode_url_path "/something>" = "/something%3E" := by decide
    have hval : isValidRedirectTarget "/something%3E" = true := by decide
    have hred : axum_cached_redirect "/something%3E"
        CachePolicy.forever_in_cdn_and_browser
        = .ok { status := 302, location := some "/something%3E",
                cache_policy := some CachePolicy.forever_in_cdn_and_browser } := by
      simp [axum_cached_redirect, hval]
    constructor <;>
      simp [AxumNope.into_response, AxumNope.into_error_response, henc, hred,
        ErrorResponse.into_html_response]
  · have hred : axum_cached_redirect (encode_url_path target) cp
        = .ok { status := 302, location := some (encode_url_path target),
                cache_policy := some cp } := by
      simp [axum_cached_redirect, h]
    constructor <;>
      simp [AxumNope.into_response, AxumNope.into_error_response, hred,
        ErrorResponse.into_html_response]

/-- C5 witness: a plain path passes the redirect builder and lands (encoded,
here unchanged) in the `Location` header. -/
theorem redirect_location_is_percent_encoded_witness :
    (AxumNope.into_response (.redirect "/abc" CachePolicy.other_policy)).status
      = 302
    ∧ (AxumNope.into_response (.redirect "/abc" CachePolicy.other_policy)).location
      = some (encode_url_path "/abc") :=
  redirect_location_is_percent_encoded.2.1 "/abc" CachePolicy.other_policy
    (by decide)

/-- C9: the registry metadata client's public operations never propagate a
failure: `get_crate_data` falls back to an empty owners list when the owners
fetch fails, and `get_release_data` falls back to the current time, not
yanked, zero downloads when its fetch fails; on success both pass the fetched
data through. -/
theorem registry_client_total_with_fallbacks {V T : Type} [DecidableEq V]
    (now : T) (urlResult : Except String Unit)
    (httpO : Except String (List OwnerData))
    (httpV : Except String (List (VersionData V T)))
    (parseResult : Except String V) :
    (∀ e, get_owners urlResult httpO = .error e →
        get_crate_data urlResult httpO = { owners := [] })
    ∧ (∀ owners, get_owners urlResult httpO = .ok owners →
        get_crate_data urlResult httpO = { owners := owners })
    ∧ (∀ e, get_release_time_yanked_downloads urlResult httpV parseResult
          = .error e →
        get_release_data now urlResult httpV parseResult
          = { release_time := now, yanked := false, downloads := 0 })
    ∧ ∀ rt y d, get_release_time_yanked_downloads urlResult httpV parseResult
          = .ok (rt, y, d) →
        get_release_data now urlResult httpV parseResult
          = { release_time := rt, yanked := y, downloads := d } := by
  refine ⟨fun e h => ?_, fun owners h => ?_, fun e h => ?_, fun rt y d h => ?_⟩ <;>
    simp [get_crate_data, get_release_data, h]

/-- C9 witness: with a missing api base both fetches fail and both public
operations return the documented fallback values. -/
theorem registry_client_total_with_fallbacks_witness :
    get_crate_data (Except.error "no api base") (Except.ok []) = { owners := [] }
    ∧ get_release_data (0 : Nat) (Except.error "no api base")
        (Except.ok ([] : List (VersionData Nat Nat))) (Except.ok 1)
      = { release_time := 0, yanked := false, downloads := 0 } :=
  ⟨(@registry_client_total_with_fallbacks Nat Nat _ 0 (Except.error "no api base")
      (Except.ok []) (Except.ok []) (Except.ok 1)).1 "no api base" rfl,
    (@registry_client_total_with_fallbacks Nat Nat _ 0 (Except.error "no api base")
      (Except.ok []) (Except.ok []) (Except.ok 1)).2.2.1 "no api base" rfl⟩

/-- C10: in `get_owners`, an entry whose login is present but empty is
excluded from the result, while an entry whose login is absent passes the
filter and becomes a `CrateOwner` whose every missing field is the empty
string — so the returned list may still hold owners with an empty login. -/
theorem owners_filter_drops_present_empty_login (d : OwnerData)
    (rest : List OwnerData) :
    (((d :: rest).filter ownerDataKept).map crateOwnerOfData
      = (if d.login = some "" then [] else [crateOwnerOfData d])
        ++ (rest.filter ownerDataKept).map crateOwnerOfData)
    ∧ crateOwnerOfData { avatar := none, email := none, login := none, name := none }
      = { avatar := "", email := "", login := "", name := "" }
    ∧ get_owners (Except.ok ())
        (Except.ok [{ avatar := none, email := none, login := none, name := none }])
      = Except.ok [{ avatar := "", email := "", login := "", name := "" }] := by
  refine ⟨?_, rfl, rfl⟩
  rcases hl : d.login with _ | s
  · rw [List.filter_cons]
    simp [ownerDataKept, hl]
  · by_cases hs : s = ""
    · subst hs
      have hk : ownerDataKept d = false := by
        simp [ownerDataKept, hl, String.isEmpty_iff]
      rw [List.filter_cons, hk]
      simp [hl]
    · have hse : s.isEmpty = false := by
        rw [Bool.eq_false_iff]
        intro h
        exact hs (by rwa [String.isEmpty_iff] at h)
      have hk : ownerDataKept d = true := by
        simp [ownerDataKept, hl, hse]
      rw [List.filter_cons, hk]
      simp [hl, hs]

end DocsRs
